import Mathlib

/-
Verification of the PyChaRGe chatbot reply engine (pycharge/pycharge.py)
against its natural-language specification.

The embedding below translates the Python source into Lean definitions:

* `Target` and its constructor model `Target.__init__`, `_do_substitutions`
  and `_kill_non_alphanumerics` (pycharge.py lines 390-454).  Python detail
  kept faithfully: `re.split('\s+', text, re.UNICODE)` passes `re.UNICODE`
  (= 32 in Python 2) positionally as the *maxsplit* argument, and
  `re.sub("[\W]+", "", word, re.UNICODE)` passes it as *count*; both are
  modelled by an explicit budget of 32.  Without the flag, `\s` and `\w`
  have their ASCII meanings, which is what `isPySpace`/`isPyWordChar` encode.
* `Rule`, `Topic`, `Engine` and the operations `Rule.init` (`Rule.__init__`),
  `Rule.lt` (`Rule.__lt__`), `Rule.get_regexc`, `Rule.cache_regexes`,
  `load_pattern` (`ChatbotEngine._load_pattern` after `_check_pattern_spec`),
  `set_user` (`_set_user`), `build_cache`, `pyReply` (`ChatbotEngine.reply`)
  are translated from pycharge.py lines 61-385.
* The pattern-grammar collaborator (`PatternParser`: parse/format/score/regex)
  and compiled regexes live outside src/; the spec declares them out of scope,
  so they are passed in as parameters (`ParserOps`, a `compileRe` function);
  handlers (bound methods of `Script` subclasses, also outside src/) are
  modelled by the small language `HandlerProg`: return a string, raise, or
  call `self.reply(user, message)` again.
* Python exceptions are modelled by `Except PyExc`; an attribute that was
  never assigned is modelled as `Option.none`, and reading it yields
  `PyExc.attributeError` exactly where Python attribute lookup would raise.
* Logging (`_say`, debug/error loggers) and the `Script.match` /
  `Script.set_user` class-level bookkeeping are side effects with no bearing
  on any claim and are omitted.  Python dicts are modelled as association
  lists in insertion order.
-/

/-- ASCII `\s` as matched by Python 2 `re` on `str` without `re.UNICODE`. -/
def isPySpace (c : Char) : Bool :=
  c == ' ' || c == '\t' || c == '\n' || c == '\r' || c == '\x0b' || c == '\x0c'

/-- ASCII `\w` as matched by Python 2 `re` on `str` without `re.UNICODE`. -/
def isPyWordChar (c : Char) : Bool :=
  c.isAlpha || c.isDigit || c == '_'

mutual

/-- State of `re.split('\s+', s, maxsplit)` while inside a piece: `n` splits
remain, `cur` is the reversed current piece.  When the budget hits 0 at a
separator, the remainder of the string (separator included) is the final
piece, exactly as `re.split` behaves once `maxsplit` is exhausted. -/
def pySplitWord (n : Nat) (cur : List Char) : List Char → List String
  | [] => [String.mk cur.reverse]
  | c :: cs =>
      if isPySpace c then
        match n with
        | 0 => [String.mk (cur.reverse ++ c :: cs)]
        | m + 1 => String.mk cur.reverse :: pySplitGap m cs
      else pySplitWord n (c :: cur) cs

/-- State of the splitter while consuming a maximal run of whitespace
(one `\s+` match); a run at end of input yields a trailing empty piece. -/
def pySplitGap (n : Nat) : List Char → List String
  | [] => [""]
  | c :: cs => if isPySpace c then pySplitGap n cs else pySplitWord n [c] cs

end

/-- `re.split('\s+', text, maxsplit)` on an ASCII-pattern `str`. -/
def pyReSplitWs (maxsplit : Nat) (text : String) : List String :=
  pySplitWord maxsplit [] text.data

mutual

/-- State of `re.sub("[\W]+", "", word, count)` while inside word characters:
`n` replacements remain, `acc` is the reversed output so far.  When the
budget hits 0 at a non-word character, the remainder is copied verbatim. -/
def pyKillWord (n : Nat) (acc : List Char) : List Char → List Char
  | [] => acc.reverse
  | c :: cs =>
      if isPyWordChar c then pyKillWord n (c :: acc) cs
      else
        match n with
        | 0 => acc.reverse ++ c :: cs
        | m + 1 => pyKillGap m acc cs

/-- State of the substitution while deleting one maximal `[\W]+` run. -/
def pyKillGap (n : Nat) (acc : List Char) : List Char → List Char
  | [] => acc.reverse
  | c :: cs => if isPyWordChar c then pyKillWord n (c :: acc) cs else pyKillGap n acc cs

end

/-- `str.lower()` for the ASCII inputs considered here. -/
def pyLower (s : String) : String := String.mk (s.data.map Char.toLower)

/-- Python exceptions that the embedded code can raise. -/
inductive PyExc where
  | attributeError (name : String)
  | keyError (name : String)
  deriving DecidableEq

/-- `Target._kill_non_alphanumerics`: `re.sub("[\W]+", "", word, re.UNICODE)`,
with `re.UNICODE` (= 32) landing in the *count* argument. -/
def kill_non_alphanumerics (word : String) : String :=
  String.mk (pyKillWord 32 [] word.data)

/-- A substitutions dictionary, words to replacement strings. -/
abbrev SubTable := List (String × String)

/-- `Target._do_substitutions`.  When `substitutions` is not `None`, the body
evaluates `self._substitutions.get(word, word)`, but no code ever assigns a
`_substitutions` attribute on `Target` (nor on its class), so the attribute
lookup raises `AttributeError`; the substitutions argument itself is never
consulted.  When `substitutions` is `None`, the word is wrapped singly. -/
def Target.do_substitutions (word : String) (substitutions : Option SubTable) :
    Except PyExc (List String) :=
  match substitutions with
  | none => .ok [word]
  | some _ => .error (.attributeError "_substitutions")

/-- The list comprehension `[self._do_substitutions(word, substitutions) for
word in lc_words]`: stops at the first raised exception. -/
def Target.do_substitutions_all (substitutions : Option SubTable) :
    List String → Except PyExc (List (List String))
  | [] => .ok []
  | w :: ws =>
      match Target.do_substitutions w substitutions with
      | .error e => .error e
      | .ok l =>
          match Target.do_substitutions_all substitutions ws with
          | .error e => .error e
          | .ok ls => .ok (l :: ls)

/-- The value produced by `Target.__init__` (pycharge.py lines 425-435). -/
structure Target where
  orig_text : String
  orig_words : List String
  tokenized_words : List (List String)
  normalized : String
  deriving DecidableEq

/-- `Target.__init__(text, substitutions, say)`: split on whitespace (with the
maxsplit-32 accident), lower-case, run `_do_substitutions` over every word
(which raises whenever `substitutions` is not `None`), strip non-word
characters, and join every token group with single spaces. -/
def Target.make (text : String) (substitutions : Option SubTable) :
    Except PyExc Target :=
  let orig_words := pyReSplitWs 32 text
  let lc_words := orig_words.map pyLower
  match Target.do_substitutions_all substitutions lc_words with
  | .error e => .error e
  | .ok sub_words =>
      let tokenized_words := sub_words.map (fun wl => wl.map kill_non_alphanumerics)
      .ok { orig_text := text
            orig_words := orig_words
            tokenized_words := tokenized_words
            normalized := String.intercalate " "
              (tokenized_words.map (fun wl => String.intercalate " " wl)) }

/-- `Target(message)` as constructed inside `ChatbotEngine.reply`:
`substitutions` defaults to `None`, so construction cannot raise and every
token group is a single token. -/
def Target.makeNone (text : String) : Target :=
  let orig_words := pyReSplitWs 32 text
  let lc_words := orig_words.map pyLower
  let sub_words := lc_words.map (fun w => [w])
  let tokenized_words := sub_words.map (fun wl => wl.map kill_non_alphanumerics)
  { orig_text := text
    orig_words := orig_words
    tokenized_words := tokenized_words
    normalized := String.intercalate " "
      (tokenized_words.map (fun wl => String.intercalate " " wl)) }

mutual

/-- Piece state of `re.split('\s+', s, flags=re.UNICODE)` with no maxsplit
(the correctly-flagged split used inside `_do_substitutions`). -/
def pySplitWordAll (cur : List Char) : List Char → List String
  | [] => [String.mk cur.reverse]
  | c :: cs =>
      if isPySpace c then String.mk cur.reverse :: pySplitGapAll cs
      else pySplitWordAll (c :: cur) cs

/-- Separator-run state of the unlimited splitter. -/
def pySplitGapAll : List Char → List String
  | [] => [""]
  | c :: cs => if isPySpace c then pySplitGapAll cs else pySplitWordAll [c] cs

end

/-- Modelled from the spec and from Target's own docstring (pycharge.py lines
406-423): `_do_substitutions` as documented, reading the substitutions
argument: a miss wraps the lower-cased word; a hit splits the replacement on
whitespace (this split passes `flags=re.UNICODE` correctly, no maxsplit). -/
def Target.do_substitutions_documented (word : String) (substitutions : SubTable) :
    List String :=
  pySplitWordAll [] (((substitutions.lookup word).getD word).data)

/-- Modelled from the spec and from Target's docstring: the normalization
pipeline with the documented substitution behaviour, used to witness what the
docstring example promises. -/
def Target.make_documented (text : String) (substitutions : SubTable) : Target :=
  let orig_words := pyReSplitWs 32 text
  let lc_words := orig_words.map pyLower
  let sub_words := lc_words.map (fun w => Target.do_substitutions_documented w substitutions)
  let tokenized_words := sub_words.map (fun wl => wl.map kill_non_alphanumerics)
  { orig_text := text
    orig_words := orig_words
    tokenized_words := tokenized_words
    normalized := String.intercalate " "
      (tokenized_words.map (fun wl => String.intercalate " " wl)) }

/-- Behaviour of one handler (a zero-argument bound method of a Script
subclass; script.py is outside src/): return a string, raise an exception,
or call `self.reply(user, message)` again (the depth argument defaults to 0
on such a call) and return its result. -/
inductive HandlerProg where
  | ret (s : String)
  | raise
  | callReply (user msg : String)
  deriving DecidableEq

/-- Alternates table of one topic (name to pattern fragment). -/
abbrev Alternates := List (String × String)

/-- The dictionary `d = {"a": topic.alternates}` handed to the renderer. -/
abbrev AltDict := List (String × Alternates)

/-- The pattern-grammar collaborator (`PatternParser`), declared out of scope
by the spec: parse a pattern (PatternError on failure, carried as a message),
format an AST canonically, score it, and render it to a regex source given
the alternates (PatternVariableNotFoundError on a missing alternate). -/
structure ParserOps (α : Type) where
  parse : String → Except String α
  format : α → String
  score : α → Int
  regex : α → AltDict → Except Unit String

/-- One `Rule` object (pycharge.py 304-385).  `regexc = none` models the
`regexc` attribute never having been assigned (reading it then raises
AttributeError); a compiled regex is modelled by its match function. -/
structure Rule (α : Type) where
  pattern_tree : α
  previous_tree : Option α
  weight : Int
  rule : HandlerProg
  handlerId : Nat
  rulename : String
  formatted_pattern : String
  formatted_previous : Option String
  score : Int
  pattern_regexc : Option Unit
  previous_regexc : Option Unit
  regexc : Option (String → Bool)

/-- `Rule.__init__` (pycharge.py 330-356).  Faithful detail at lines 351-353:
`formatted_previous` is initialized to None and, when a previous tree exists,
`_pp.format(self._previous_tree)` is evaluated but its result is discarded,
so `formatted_previous` remains None for every rule. -/
def Rule.init (pp : ParserOps α) (raw_pattern raw_previous : String) (weight : Int)
    (hid : Nat) (handler : HandlerProg) (rulename : String) : Except String (Rule α) :=
  match pp.parse raw_pattern with
  | .error e => .error e
  | .ok ptree =>
      match (if raw_previous == "" then Except.ok none else (pp.parse raw_previous).map some) with
      | .error e => .error e
      | .ok prevtree =>
          let _discarded := prevtree.map pp.format
          .ok { pattern_tree := ptree
                previous_tree := prevtree
                weight := weight
                rule := handler
                handlerId := hid
                rulename := rulename
                formatted_pattern := pp.format ptree
                formatted_previous := none
                score := pp.score ptree
                pattern_regexc := none
                previous_regexc := none
                regexc := none }

/-- `Rule.__lt__` (pycharge.py 372-374): weight first, then score. -/
def Rule.lt (a b : Rule α) : Bool :=
  decide (a.weight < b.weight) || (decide (a.weight = b.weight) && decide (a.score < b.score))

/-- Insertion step of `sorted(rules, reverse=True)`: place `r` before the
first element that compares `<` to it, keeping ties in first-inserted-first
order (Python's sort is stable, and `reverse=True` preserves stability). -/
def insertDesc (r : Rule α) : List (Rule α) → List (Rule α)
  | [] => [r]
  | x :: xs => if Rule.lt x r then r :: x :: xs else x :: insertDesc r xs

/-- `sorted(rules, reverse=True)` over `Rule.__lt__`. -/
def pySortedDesc (l : List (Rule α)) : List (Rule α) :=
  l.foldl (fun acc r => insertDesc r acc) []

/-- `Rule._get_regexc` (pycharge.py 362-370).  Faithful oddities: the
`parsetree` parameter is ignored and the body always renders
`self._pattern_tree`; on success `self.regexc` is assigned and the function
falls off the end (returning None); on PatternVariableNotFoundError it
returns None leaving `regexc` untouched.  So the returned value is always
None, and `regexc` is compiled from the main pattern no matter which tree
was passed in. -/
def Rule.get_regexc (cRe : String → String → Bool) (pp : ParserOps α)
    (r : Rule α) (parsetree : Option α) (alternates : AltDict) : Rule α × Option Unit :=
  match pp.regex r.pattern_tree alternates with
  | .ok s => ({ r with regexc := some (cRe (s ++ "$")) }, none)
  | .error _ => (r, none)

/-- `Rule.cache_regexes` (pycharge.py 358-360): two `_get_regexc` calls whose
always-None results land in `pattern_regexc` and `previous_regexc`. -/
def Rule.cache_regexes (cRe : String → String → Bool) (pp : ParserOps α)
    (alternates : AltDict) (r : Rule α) : Rule α :=
  let p1 := Rule.get_regexc cRe pp r (some r.pattern_tree) alternates
  let r1 := { p1.1 with pattern_regexc := p1.2 }
  let p2 := Rule.get_regexc cRe pp r1 r1.previous_tree alternates
  { p2.1 with previous_regexc := p2.2 }

/-- One `Topic` (pycharge.py 298-302). -/
structure Topic (α : Type) where
  rules : List ((String × Option String) × Rule α)
  sortedrules : List (Rule α)
  alternates : Alternates

/-- `ChatbotEngine._load_pattern` (pycharge.py 182-209), from the point where
`_check_pattern_spec` has accepted the method's signature: construct the Rule
(a PatternError aborts the registration), then register it under the key
`(formatted_pattern, formatted_previous)`; if that key is already present the
new rule is dropped (a warning is logged when the handler differs, nothing
otherwise), else it is added. -/
def load_pattern (pp : ParserOps α) (t : Topic α) (raw_pattern raw_previous : String)
    (weight : Int) (hid : Nat) (handler : HandlerProg) (rulename : String) : Topic α :=
  match Rule.init pp raw_pattern raw_previous weight hid handler rulename with
  | .error _ => t
  | .ok rule =>
      let tup := (rule.formatted_pattern, rule.formatted_previous)
      match t.rules.lookup tup with
      | some _ => t
      | none => { t with rules := t.rules ++ [(tup, rule)] }

/-- The `ChatbotEngine` instance state. -/
structure Engine (α : Type) where
  depth_limit : Int
  botvars : List (String × String)
  uservars : List (String × List (String × String))
  substitutions : List (String × String)
  topics : List (String × Topic α)
  cache_built : Option Bool

/-- `ChatbotEngine.__init__` (pycharge.py 61-89): store the depth limit
(never read again anywhere in the class), seed botvars with the debug flag,
create the "all" topic with the built-in colors alternate, and never assign
the `cache_built` attribute (modelled as none). -/
def engineInit (α : Type) (debug : Bool) (depth : Int) : Engine α :=
  { depth_limit := depth
    botvars := [("debug", if debug then "True" else "False")]
    uservars := []
    substitutions := []
    topics := [("all", { rules := [], sortedrules := [],
                         alternates := [("colors", "(red|green|blue)")] })]
    cache_built := none }

/-- `ChatbotEngine.load_scripts` on a path for which `os.path.isdir` is false
(pycharge.py 111-114): an error is logged and the method returns before any
attribute is assigned, leaving the engine untouched. -/
def load_scripts_bad_directory (eng : Engine α) : Engine α := eng

/-- Python dict assignment `d[k] = v` on an insertion-ordered mapping. -/
def insertAssoc (l : List (String × β)) (k : String) (v : β) : List (String × β) :=
  match l with
  | [] => [(k, v)]
  | (k', v') :: rest => if k' == k then (k, v) :: rest else (k', v') :: insertAssoc rest k v

/-- `ChatbotEngine._set_user` (pycharge.py 275-286): create the user's
variable dict on first contact with topic "all"; read the stored topic (a
dict lookup, KeyError if a handler deleted the key); fall back to "all" when
the stored topic no longer exists.  `Script.set_user` bookkeeping omitted. -/
def set_user (eng : Engine α) (user : String) : Except PyExc (Engine α) :=
  let userdict := (eng.uservars.lookup user).getD [("__topic__", "all")]
  match userdict.lookup "__topic__" with
  | none => .error (.keyError "__topic__")
  | some topic =>
      let userdict :=
        if (eng.topics.lookup topic).isNone then insertAssoc userdict "__topic__" "all"
        else userdict
      .ok { eng with uservars := insertAssoc eng.uservars user userdict }

/-- `ChatbotEngine.build_cache` (pycharge.py 235-245).  Reading
`self.cache_built` before any assignment raises AttributeError.  When the
flag is False, every topic's rules are sorted descending into `sortedrules`
and each rule's regex is cached against `d = {"a": topic.alternates}`; in
Python `cache_regexes` mutates the shared Rule objects, and the updated rules
are stored in `sortedrules`, the only place `reply` reads rules from. -/
def build_cache (cRe : String → String → Bool) (pp : ParserOps α)
    (eng : Engine α) : Except PyExc (Engine α) :=
  match eng.cache_built with
  | none => .error (.attributeError "cache_built")
  | some true => .ok eng
  | some false =>
      let newtopics := eng.topics.map (fun nt =>
        let t := nt.2
        let d : AltDict := [("a", t.alternates)]
        let sr := (pySortedDesc (t.rules.map Prod.snd)).map
          (fun r => Rule.cache_regexes cRe pp d r)
        (nt.1, { t with sortedrules := sr }))
      .ok { eng with topics := newtopics, cache_built := some true }

/-- Invocation of `rule.rule()`: a returning handler yields its string, a
raising handler yields an error (caught by the caller's except clause), and
a handler that calls `self.reply(user, msg)` re-enters the engine through
`replyFn`; an exception escaping that inner `reply` propagates out of the
handler.  The outer `none` means the call did not return within the
available nesting budget. -/
def runHandler (replyFn : Engine α → String → String → Option (Engine α × Except PyExc String))
    (eng : Engine α) : HandlerProg → Option (Engine α × Except Unit String)
  | .ret s => some (eng, .ok s)
  | .raise => some (eng, .error ())
  | .callReply u m =>
      match replyFn eng u m with
      | none => none
      | some (e, .ok s) => some (e, .ok s)
      | some (e, .error _) => some (e, .error ())

/-- The `for rule in self._topics["all"].sortedrules` loop of
`ChatbotEngine.reply` (pycharge.py 255-273): reading an absent `regexc`
attribute raises AttributeError out of `reply`; on a regex match the handler
runs inside try/except — an exception is logged and the loop continues with
the next rule — and a normal handler return breaks the loop; an empty scan
returns the initial `reply = ""`. -/
def scanRules (replyFn : Engine α → String → String → Option (Engine α × Except PyExc String))
    (eng : Engine α) : List (Rule α) → String → Option (Engine α × Except PyExc String)
  | [], _ => some (eng, .ok "")
  | r :: rest, norm =>
      match r.regexc with
      | none => some (eng, .error (.attributeError "regexc"))
      | some matcher =>
          if matcher norm then
            match runHandler replyFn eng r.rule with
            | none => none
            | some (e, .error _) => scanRules replyFn e rest norm
            | some (e, .ok s) => some (e, .ok s)
          else scanRules replyFn eng rest norm

/-- `ChatbotEngine.reply(user, message, depth=0)` (pycharge.py 248-273):
set up the user, build the cache, normalize the message (substitutions
defaulting to None), and scan the "all" topic's sorted rules.  Faithful
detail: the body never reads `depth` nor `self._depth_limit`.  Fuel bounds
the nesting of recursive reply calls; `none` means the call did not return
within `fuel` nested invocations. -/
def pyReply (cRe : String → String → Bool) (pp : ParserOps α) :
    Nat → Engine α → String → String → Int → Option (Engine α × Except PyExc String)
  | 0, _, _, _, _ => none
  | fuel + 1, eng, user, msg, _depth =>
      match set_user eng user with
      | .error e => some (eng, .error e)
      | .ok eng1 =>
          match build_cache cRe pp eng1 with
          | .error e => some (eng1, .error e)
          | .ok eng2 =>
              let target := Target.makeNone msg
              match eng2.topics.lookup "all" with
              | none => some (eng2, .error (.keyError "all"))
              | some t =>
                  scanRules (fun e u m => pyReply cRe pp fuel e u m 0) eng2
                    t.sortedrules target.normalized

/-- A toy pattern-grammar collaborator: the AST is the pattern text and the
renderer emits it literally. -/
def ppId : ParserOps String :=
  { parse := fun s => .ok s
    format := id
    score := fun _ => 0
    regex := fun a _ => .ok a }

/-- A toy collaborator whose renderer resolves the alternate reference
"@missing" through the alternates dictionary (PatternVariableNotFoundError
when the table lacks it) and renders every other AST literally. -/
def ppAlt : ParserOps String :=
  { parse := fun s => .ok s
    format := id
    score := fun _ => 1
    regex := fun a alts =>
      if a == "@missing" then
        match alts.lookup "a" with
        | none => .error ()
        | some tbl =>
            match tbl.lookup "missing" with
            | none => .error ()
            | some frag => .ok frag
      else .ok a }

/-- A toy `re.compile`: the compiled regex matches exactly the strings whose
anchored form equals the rendered pattern source. -/
def cReEq : String → String → Bool := fun p s => p == s ++ "$"

/-- A toy `re.compile` for wildcard patterns: everything matches. -/
def cReTrue : String → String → Bool := fun _ _ => true

/-- An empty topic, `Topic()` (pycharge.py 298-302). -/
def topic0 : Topic String := { rules := [], sortedrules := [], alternates := [] }

/-- C5 scenario: one @pattern rule whose main pattern is "hello" and whose
previous pattern references the alternate "missing", absent from the topic's
(empty) alternate table. -/
def topicC5 : Topic String :=
  load_pattern ppAlt topic0 "hello" "@missing" 1 0 (.ret "matched") "r5"

/-- C5 engine, ready for a first reply (load_scripts has set cache_built to
False; build_cache has not yet run). -/
def engC5 : Engine String :=
  { depth_limit := 50, botvars := [("debug", "False")], uservars := [],
    substitutions := [], topics := [("all", topicC5)], cache_built := some false }

/-- C3 scenario: a rule whose MAIN pattern references the absent alternate,
so regex caching fails and the rule's regexc attribute is never assigned. -/
def topicC3 : Topic String :=
  load_pattern ppAlt topic0 "@missing" "" 1 0 (.ret "x") "r3"

/-- C3 engine around `topicC3`. -/
def engC3 : Engine String :=
  { depth_limit := 50, botvars := [("debug", "False")], uservars := [],
    substitutions := [], topics := [("all", topicC3)], cache_built := some false }

/-- C2 scenario: a weight-5 rule whose handler raises and a weight-3 rule
whose handler returns "fallback", registered in that order; with the
wildcard matcher both match any message. -/
def topicC2 : Topic String :=
  load_pattern ppId (load_pattern ppId topic0 "pa" "" 5 1 .raise "ra")
    "pb" "" 3 2 (.ret "fallback") "rb"

/-- C2 engine around `topicC2`. -/
def engC2 : Engine String :=
  { depth_limit := 50, botvars := [("debug", "False")], uservars := [],
    substitutions := [], topics := [("all", topicC2)], cache_built := some false }

/-- C4 scenario, first registration: pattern "hi" with previous "prev a". -/
def topicC4a : Topic String :=
  load_pattern ppId topic0 "hi" "prev a" 1 1 (.ret "A") "r1"

/-- C4 scenario, second registration: same pattern "hi" but a different
previous pattern "prev b" and a different handler. -/
def topicC4 : Topic String :=
  load_pattern ppId topicC4a "hi" "prev b" 1 2 (.ret "B") "r2"

/-- A rule as it stands after a successful cache build: regexc assigned to an
everything-matcher, weight 5 and a handler that raises. -/
def ruleRaise : Rule String :=
  { pattern_tree := "pa", previous_tree := none, weight := 5, rule := .raise,
    handlerId := 1, rulename := "ra", formatted_pattern := "pa",
    formatted_previous := none, score := 0, pattern_regexc := none,
    previous_regexc := none, regexc := some (fun _ => true) }

/-- A cached weight-3 rule whose handler returns "fallback". -/
def ruleRet : Rule String :=
  { pattern_tree := "pb", previous_tree := none, weight := 3, rule := .ret "fallback",
    handlerId := 2, rulename := "rb", formatted_pattern := "pb",
    formatted_previous := none, score := 0, pattern_regexc := none,
    previous_regexc := none, regexc := some (fun _ => true) }

/-- A topic whose cache has been built from `ruleRaise` and `ruleRet`. -/
def topicBuilt : Topic String :=
  { rules := [(("pa", none), ruleRaise), (("pb", none), ruleRet)],
    sortedrules := [ruleRaise, ruleRet], alternates := [] }

/-- An engine whose cache is already built, holding `topicBuilt`. -/
def engBuilt : Engine String :=
  { depth_limit := 50, botvars := [("debug", "False")], uservars := [],
    substitutions := [], topics := [("all", topicBuilt)], cache_built := some true }

/-- C1 scenario: a cached wildcard rule whose handler unconditionally calls
`self.reply("u", "hello")` again. -/
def ruleRec : Rule String :=
  { pattern_tree := "*", previous_tree := none, weight := 1,
    rule := .callReply "u" "hello", handlerId := 9, rulename := "recurse",
    formatted_pattern := "*", formatted_previous := none, score := 0,
    pattern_regexc := none, previous_regexc := none,
    regexc := some (fun _ => true) }

/-- The topic holding only the self-recursing rule, cache built. -/
def topicRec : Topic String :=
  { rules := [(("*", none), ruleRec)], sortedrules := [ruleRec], alternates := [] }

/-- C1 engine: finite depth limit 50, cache built, only the recursing rule. -/
def engRec : Engine String :=
  { depth_limit := 50, botvars := [("debug", "False")], uservars := [],
    substitutions := [], topics := [("all", topicRec)], cache_built := some true }

/-- C7 witness rule: weight 5, score 0. -/
def ruleW5 : Rule String :=
  { pattern_tree := "p5", previous_tree := none, weight := 5, rule := .ret "A",
    handlerId := 3, rulename := "w5", formatted_pattern := "p5",
    formatted_previous := none, score := 0, pattern_regexc := none,
    previous_regexc := none, regexc := some (fun _ => true) }

/-- C7 witness rule: weight 3 but higher score 7. -/
def ruleW3 : Rule String :=
  { pattern_tree := "p3", previous_tree := none, weight := 3, rule := .ret "B",
    handlerId := 4, rulename := "w3", formatted_pattern := "p3",
    formatted_previous := none, score := 7, pattern_regexc := none,
    previous_regexc := none, regexc := some (fun _ => true) }

/-- A handler that does not re-enter reply (it returns or raises). -/
def HandlerProg.noReplyCall : HandlerProg → Prop
  | .callReply _ _ => False
  | _ => True

/-- Every per-user variable dict contains the reserved "__topic__" key.
This holds for every engine reachable through engineInit and set_user. -/
def UserVarsWF (eng : Engine α) : Prop :=
  ∀ p ∈ eng.uservars, (p.2.lookup "__topic__").isSome = true

/-- The 34-word input exhibiting the maxsplit-32 truncation. -/
def thirtyFourWords : String := String.intercalate " " (List.replicate 34 "w")

/-! Helper lemmas about the rule order, association lists and the scan loop. -/

theorem Rule.lt_iff {a b : Rule α} :
    Rule.lt a b = true ↔ (a.weight < b.weight ∨ (a.weight = b.weight ∧ a.score < b.score)) := by
  simp [Rule.lt]

theorem Rule.lt_asymm {a b : Rule α} (h : Rule.lt a b = true) : Rule.lt b a = false := by
  rw [Bool.eq_false_iff]
  intro h'
  rw [Rule.lt_iff] at h h'
  omega

theorem Rule.lt_trans {a b c : Rule α} (h1 : Rule.lt a b = true)
    (h2 : Rule.lt b c = true) : Rule.lt a c = true := by
  rw [Rule.lt_iff] at h1 h2 ⊢
  omega

theorem mem_insertDesc {r y : Rule α} :
    ∀ {l : List (Rule α)}, y ∈ insertDesc r l → y = r ∨ y ∈ l := by
  intro l
  induction l with
  | nil =>
      intro h
      simp only [insertDesc] at h
      exact Or.inl (List.mem_singleton.mp h)
  | cons x xs ih =>
      intro h
      by_cases hlt : Rule.lt x r = true
      · simp only [insertDesc, hlt, if_true] at h
        rcases List.mem_cons.mp h with h | h
        · exact Or.inl h
        · exact Or.inr h
      · simp only [insertDesc, hlt, if_false, Bool.false_eq_true] at h
        rcases List.mem_cons.mp h with h | h
        · exact Or.inr (by simp [h])
        · rcases ih h with h | h
          · exact Or.inl h
          · exact Or.inr (List.mem_cons_of_mem _ h)

theorem insertDesc_pairwise {r : Rule α} :
    ∀ {l : List (Rule α)}, l.Pairwise (fun x y => Rule.lt x y = false) →
      (insertDesc r l).Pairwise (fun x y => Rule.lt x y = false) := by
  intro l
  induction l with
  | nil => intro _; simp [insertDesc]
  | cons x xs ih =>
      intro h
      rw [List.pairwise_cons] at h
      obtain ⟨hx, hxs⟩ := h
      by_cases hlt : Rule.lt x r = true
      · simp only [insertDesc, hlt, if_true]
        rw [List.pairwise_cons]
        constructor
        · intro y hy
          rcases List.mem_cons.mp hy with hy | hy
          · subst hy; exact Rule.lt_asymm hlt
          · cases hry : Rule.lt r y with
            | false => rfl
            | true =>
                have := Rule.lt_trans hlt hry
                rw [hx y hy] at this
                cases this
        · rw [List.pairwise_cons]; exact ⟨hx, hxs⟩
      · simp only [insertDesc, hlt, if_false, Bool.false_eq_true]
        rw [List.pairwise_cons]
        constructor
        · intro y hy
          rcases mem_insertDesc hy with hy | hy
          · subst hy; exact Bool.eq_false_iff.mpr hlt
          · exact hx y hy
        · exact ih hxs

theorem foldl_insertDesc_pairwise (l : List (Rule α)) :
    ∀ acc : List (Rule α), acc.Pairwise (fun x y => Rule.lt x y = false) →
      (l.foldl (fun a r => insertDesc r a) acc).Pairwise (fun x y => Rule.lt x y = false) := by
  induction l with
  | nil => intro acc h; exact h
  | cons r rs ih => intro acc h; exact ih _ (insertDesc_pairwise h)

theorem pairwise_pySortedDesc (l : List (Rule α)) :
    (pySortedDesc l).Pairwise (fun x y => Rule.lt x y = false) :=
  foldl_insertDesc_pairwise l [] List.Pairwise.nil

theorem lookup_mem {β : Type} {l : List (String × β)} {k : String} {v : β}
    (h : l.lookup k = some v) : (k, v) ∈ l := by
  induction l with
  | nil => simp [List.lookup] at h
  | cons p rest ih =>
      obtain ⟨k', v'⟩ := p
      by_cases hk : k == k'
      · have hk' : k = k' := eq_of_beq hk
        simp only [List.lookup, hk] at h
        cases h
        subst hk'
        exact List.mem_cons_self _ _
      · have hk2 : (k == k') = false := by
          cases hb : (k == k') with
          | false => rfl
          | true => exact absurd hb hk
        simp only [List.lookup, hk2] at h
        exact List.mem_cons_of_mem _ (ih h)

theorem lookup_insertAssoc_self {β : Type} (l : List (String × β)) (k : String) (v : β) :
    (insertAssoc l k v).lookup k = some v := by
  induction l with
  | nil => simp [insertAssoc, List.lookup]
  | cons p rest ih =>
      obtain ⟨k', v'⟩ := p
      by_cases hk : k' = k
      · subst hk
        simp [insertAssoc, List.lookup]
      · have hk2 : (k' == k) = false := beq_eq_false_iff_ne.mpr hk
        have hk3 : (k == k') = false := beq_eq_false_iff_ne.mpr (Ne.symm hk)
        simp [insertAssoc, List.lookup, hk2, hk3, ih]

theorem mem_insertAssoc {β : Type} {l : List (String × β)} {k : String} {v : β}
    {q : String × β} : q ∈ insertAssoc l k v → q = (k, v) ∨ q ∈ l := by
  induction l with
  | nil => intro h; simp only [insertAssoc] at h; exact Or.inl (List.mem_singleton.mp h)
  | cons p rest ih =>
      intro h
      obtain ⟨k', v'⟩ := p
      by_cases hk : k' = k
      · subst hk
        simp only [insertAssoc, beq_self_eq_true, if_true] at h
        rcases List.mem_cons.mp h with h | h
        · exact Or.inl h
        · exact Or.inr (List.mem_cons_of_mem _ h)
      · have hk2 : (k' == k) = false := beq_eq_false_iff_ne.mpr hk
        simp only [insertAssoc, hk2, if_false, Bool.false_eq_true] at h
        rcases List.mem_cons.mp h with h | h
        · exact Or.inr (by simp [h])
        · rcases ih h with h | h
          · exact Or.inl h
          · exact Or.inr (List.mem_cons_of_mem _ h)

theorem set_user_ok {α : Type} {eng : Engine α} (hwf : UserVarsWF eng) (u : String) :
    ∃ uvs, set_user eng u = Except.ok ({ eng with uservars := uvs } : Engine α)
      ∧ UserVarsWF ({ eng with uservars := uvs } : Engine α) := by
  unfold set_user
  cases hu : eng.uservars.lookup u with
  | none =>
      refine ⟨_, rfl, ?_⟩
      intro p hp
      rcases mem_insertAssoc hp with hq | hq
      · rw [hq]
        by_cases ht : (eng.topics.lookup "all").isNone = true
        · simp only [ht, if_true, lookup_insertAssoc_self, Option.isSome_some]
        · simp only [ht, if_false]
          rfl
      · exact hwf p hq
  | some d =>
      have hd : (d.lookup "__topic__").isSome = true := hwf (u, d) (lookup_mem hu)
      obtain ⟨topic, htopic⟩ := Option.isSome_iff_exists.mp hd
      simp only [Option.getD_some]
      rw [htopic]
      refine ⟨_, rfl, ?_⟩
      intro p hp
      rcases mem_insertAssoc hp with hq | hq
      · rw [hq]
        by_cases ht : (eng.topics.lookup topic).isNone = true
        · simp only [ht, if_true, lookup_insertAssoc_self, Option.isSome_some]
        · simp only [ht, if_false]
          exact hd
      · exact hwf p hq

theorem scanRules_ok {α : Type}
    (f : Engine α → String → String → Option (Engine α × Except PyExc String))
    (norm : String) :
    ∀ rules : List (Rule α),
      (∀ r ∈ rules, r.regexc.isSome = true ∧ r.rule.noReplyCall) →
      ∀ eng : Engine α, ∃ e s, scanRules f eng rules norm = some (e, Except.ok s) := by
  intro rules
  induction rules with
  | nil => intro _ eng; exact ⟨eng, "", rfl⟩
  | cons r rest ih =>
      intro h eng
      obtain ⟨hsome, hnc⟩ := h r (List.mem_cons_self r rest)
      obtain ⟨m, hm⟩ := Option.isSome_iff_exists.mp hsome
      have hrest : ∀ r' ∈ rest, r'.regexc.isSome = true ∧ r'.rule.noReplyCall :=
        fun r' hr' => h r' (List.mem_cons_of_mem _ hr')
      simp only [scanRules, hm]
      by_cases hmatch : m norm = true
      · rw [if_pos hmatch]
        cases hrule : r.rule with
        | ret s => simp only [runHandler, hrule]; exact ⟨eng, s, rfl⟩
        | raise => simp only [runHandler, hrule]; exact ih hrest eng
        | callReply u' m' =>
            rw [hrule] at hnc
            exact absurd hnc (by simp [HandlerProg.noReplyCall])
      · rw [if_neg hmatch]
        exact ih hrest eng

theorem reply_recursive_diverges :
    ∀ (fuel : Nat) (eng : Engine String) (depth : Int),
      UserVarsWF eng → eng.cache_built = some true →
      eng.topics.lookup "all" = some topicRec →
      pyReply cReTrue ppId fuel eng "u" "hello" depth = none := by
  intro fuel
  induction fuel with
  | zero => intro eng depth _ _ _; rfl
  | succ n ih =>
      intro eng depth hwf hcb ht
      obtain ⟨uvs, hset, hwf2⟩ := set_user_ok hwf "u"
      have hcb2 : ({ eng with uservars := uvs } : Engine String).cache_built = some true := hcb
      have ht2 : ({ eng with uservars := uvs } : Engine String).topics.lookup "all"
          = some topicRec := ht
      have hrec := ih ({ eng with uservars := uvs } : Engine String) 0 hwf2 hcb2 ht2
      rw [hcb] at hrec
      simp only [pyReply, hset, build_cache, hcb, ht, topicRec, ruleRec, scanRules,
        runHandler, hrec, if_true]

theorem intercalate_singleton (s : String) : String.intercalate " " [s] = s := by
  simp [String.intercalate, String.intercalate.go]

theorem groups_map_intercalate (f : String → String) (l : List String) :
    ((l.map (fun w => [w])).map (fun wl => wl.map f)).map
        (fun wl => String.intercalate " " wl)
      = ((l.map (fun w => [w])).map (fun wl => wl.map f)).flatten := by
  induction l with
  | nil => rfl
  | cons w ws ih =>
      simp only [List.map_cons, List.flatten_cons, List.map_nil, List.singleton_append]
      rw [intercalate_singleton, ih]

/-- C1: the claim says a handler that unconditionally calls reply again is cut
off once the reply chain's depth reaches the configured limit, the refused
call returning an empty reply.  In the code the depth parameter and
self._depth_limit are never read: for the engine engRec (depth limit 50, one
wildcard rule whose handler calls reply again), reply never returns, no
matter how many nested calls (fuel) it is allowed and whatever depth value it
is given — the recursion is unbounded until the interpreter's stack gives
out. -/
theorem C1_depth_limit_never_enforced :
    ∀ (fuel : Nat) (depth : Int),
      pyReply cReTrue ppId fuel engRec "u" "hello" depth = none :=
  fun fuel depth =>
    reply_recursive_diverges fuel engRec depth
      (by intro p hp; simp [engRec] at hp) rfl rfl

/-- C2 counterexample: the claim says that when a matching rule's handler
raises, scanning stops there and the reply is the empty string.  In engC2 the
weight-5 rule "ra" (sorted first, as the second conjunct shows) matches and
raises, yet reply returns "fallback" from the lower-priority rule "rb": the
except-branch executes `continue`, not a stop. -/
theorem C2_handler_exception_not_stopping :
    (∃ e, pyReply cReTrue ppId 1 engC2 "u" "hello there" 0
        = some (e, Except.ok "fallback"))
    ∧ (pySortedDesc (topicC2.rules.map Prod.snd)).map (fun r => (r.rulename, r.rule))
        = [("ra", HandlerProg.raise), ("rb", HandlerProg.ret "fallback")] :=
  ⟨⟨_, rfl⟩, rfl⟩

/-- C2 amended: when a matching rule's handler raises, the failure is treated
as no reply from this rule and scanning continues with the remaining
lower-priority rules (the loop body ends in `continue`); the reply is empty
only if no later matching rule returns successfully. -/
theorem C2_scan_continues_after_handler_exception {α : Type}
    (f : Engine α → String → String → Option (Engine α × Except PyExc String))
    (eng : Engine α) (r : Rule α) (rest : List (Rule α)) (norm : String)
    (m : String → Bool) (hre : r.regexc = some m) (hm : m norm = true)
    (hr : r.rule = HandlerProg.raise) :
    scanRules f eng (r :: rest) norm = scanRules f eng rest norm := by
  simp only [scanRules, hre, hm, if_true, runHandler, hr]

/-- Witness for the C2 amended theorem at a concrete raising rule. -/
theorem C2_scan_continues_witness :
    scanRules (fun (_ : Engine String) _ _ => none) engBuilt (ruleRaise :: [ruleRet]) "x"
      = scanRules (fun (_ : Engine String) _ _ => none) engBuilt [ruleRet] "x" :=
  C2_scan_continues_after_handler_exception _ engBuilt ruleRaise [ruleRet] "x"
    (fun _ => true) rfl rfl rfl

/-- C3 counterexample: the claim says no exception ever escapes reply.  In
engC3 the only rule's main pattern references an alternate missing from the
topic's table, so cache building leaves its regexc attribute unassigned, and
the scan's `re.match(rule.regexc, ...)` raises AttributeError out of
reply. -/
theorem C3_attribute_error_escapes_reply :
    ∃ e, pyReply cReEq ppAlt 1 engC3 "u" "whatever" 0
        = some (e, Except.error (PyExc.attributeError "regexc")) :=
  ⟨_, rfl⟩

/-- C3 amended: exceptions raised by handlers during reply's scan are caught
and logged and reply still returns a string; but reply itself can raise, so
the recovery guarantee only holds when the cache is built and every scanned
rule has a compiled regex (and no handler re-enters reply). -/
theorem reply_ok_when_cache_built {α : Type} (cRe : String → String → Bool)
    (pp : ParserOps α) (fuel : Nat) (eng : Engine α) (u msg : String) (d : Int)
    (t : Topic α) (hwf : UserVarsWF eng) (hcb : eng.cache_built = some true)
    (ht : eng.topics.lookup "all" = some t)
    (hr : ∀ r ∈ t.sortedrules, r.regexc.isSome = true ∧ r.rule.noReplyCall) :
    ∃ e s, pyReply cRe pp (fuel + 1) eng u msg d = some (e, Except.ok s) := by
  obtain ⟨uvs, hset, hwf2⟩ := set_user_ok hwf u
  simp only [pyReply, hset, build_cache, hcb, ht]
  exact scanRules_ok _ _ t.sortedrules hr _

/-- Witness for the C3 amended theorem: engBuilt holds a raising rule ahead
of a returning rule, and reply returns normally. -/
theorem reply_ok_when_cache_built_witness :
    ∃ e s, pyReply cReTrue ppId 1 engBuilt "u" "hi" 0 = some (e, Except.ok s) :=
  reply_ok_when_cache_built cReTrue ppId 0 engBuilt "u" "hi" 0 topicBuilt
    (by intro p hp; simp [engBuilt] at hp)
    rfl rfl
    (by
      intro r hr
      simp only [topicBuilt, List.mem_cons, List.not_mem_nil, or_false] at hr
      rcases hr with hr | hr
      · subst hr; exact ⟨rfl, trivial⟩
      · subst hr; exact ⟨rfl, trivial⟩)

/-- C4: the claim says formatted_previous holds the parser's canonical
formatting of the previous pattern and that rules with the same pattern but
different previous patterns occupy two distinct registry entries.  In the
code the result of `_pp.format(self._previous_tree)` is discarded, so
formatted_previous is None even for a rule built with previous "prev a"
(first conjunct); the keys of the two registrations collide on ("hi", None)
and only the first handler survives (second conjunct).  The parts of the
claim about duplicate handling do hold: re-registering the identical rule is
a no-op (third conjunct). -/
theorem C4_formatted_previous_never_assigned :
    (Rule.init ppId "hi" "prev a" 1 1 (HandlerProg.ret "A") "r1").toOption.map
        (fun r => r.formatted_previous) = some none
    ∧ topicC4.rules.map (fun kr => kr.2.handlerId) = [1]
    ∧ load_pattern ppId topicC4a "hi" "prev a" 1 1 (HandlerProg.ret "A") "r1" = topicC4a :=
  ⟨rfl, rfl, rfl⟩

/-- C5: the claim says a rule whose previous pattern references an alternate
absent from the topic's table gets no usable regex and never matches.  In
engC5 such a rule (pattern "hello", previous "@missing", empty alternate
table) does match the message "hello" and its handler's reply is returned,
because _get_regexc ignores its parsetree argument and always renders the
main pattern, so the previous tree is never rendered at all. -/
theorem C5_rule_matches_despite_missing_previous_alternate :
    ∃ e, pyReply cReEq ppAlt 1 engC5 "u" "hello" 0 = some (e, Except.ok "matched") :=
  ⟨_, rfl⟩

/-- C6: the claim (and Target's own docstring) says "I'm tired today!" with
the substitution i'm -> i am normalizes to "i am tired today".  Constructing
a Target with a non-None substitutions table raises AttributeError because
_do_substitutions reads self._substitutions, an attribute never assigned
(first conjunct); the documented pipeline, reading the substitutions
argument as the docstring describes, does produce "i am tired today"
(second conjunct). -/
theorem C6_substitution_scenario_raises :
    Target.make "I'm tired today!" (some [("i'm", "i am")])
        = Except.error (PyExc.attributeError "_substitutions")
    ∧ (Target.make_documented "I'm tired today!" [("i'm", "i am")]).normalized
        = "i am tired today" :=
  ⟨rfl, rfl⟩

/-- C7: among the rules of the scanned topic, sorted(rules, reverse=True)
places a rule with strictly greater weight — or equal weight and strictly
greater score, the two cases of Rule.__lt__ — strictly before the other, for
every registration order l; since the reply scan walks sortedrules in list
order, that rule is tried and hence selected first when both match. -/
theorem C7_higher_priority_selected_first {α : Type} (l : List (Rule α)) (a b : Rule α)
    (h : Rule.lt b a = true) (i j : Nat)
    (hi : i < (pySortedDesc l).length) (hj : j < (pySortedDesc l).length)
    (ha : (pySortedDesc l).get ⟨i, hi⟩ = a) (hb : (pySortedDesc l).get ⟨j, hj⟩ = b) :
    i < j := by
  rcases Nat.lt_trichotomy i j with hij | hij | hij
  · exact hij
  · exfalso
    subst hij
    have hab : a = b := by rw [← ha, ← hb]
    rw [hab] at h
    rw [Rule.lt_iff] at h
    omega
  · exfalso
    have hp := pairwise_pySortedDesc l
    rw [List.pairwise_iff_get] at hp
    have hba := hp ⟨j, hj⟩ ⟨i, hi⟩ hij
    rw [ha, hb] at hba
    rw [h] at hba
    exact Bool.noConfusion hba

/-- Witness for C7: ruleW3 (weight 3) sorts after ruleW5 (weight 5) although
registered first. -/
theorem C7_priority_witness :
    Rule.lt ruleW3 ruleW5 = true ∧ (0 : Nat) < 1 :=
  ⟨rfl, C7_higher_priority_selected_first [ruleW3, ruleW5] ruleW5 ruleW3 rfl 0 1
    (by decide) (by decide) rfl rfl⟩

/-- C8: the claim says splitting never merges adjacent words however many
words the input has.  Because re.UNICODE (= 32) is passed as maxsplit, a
34-word input splits into only 33 pieces and the last piece keeps two words
joined by the original space. -/
theorem C8_split_truncated_at_32 :
    (Target.makeNone thirtyFourWords).orig_words.length = 33
    ∧ (Target.makeNone thirtyFourWords).orig_words.getLast? = some "w w" :=
  ⟨rfl, rfl⟩

/-- C9: normalized is exactly all tokens of all tokenized-word groups joined
by single spaces (first conjunct, for every input text), and empty tokens
are kept, an all-symbolic word between two words producing two consecutive
separators: "Wazzup! :) hi" normalizes to "wazzup  hi" with a double space
(second conjunct). -/
theorem C9_normalized_includes_empty_tokens :
    (∀ text : String, (Target.makeNone text).normalized
        = String.intercalate " " (Target.makeNone text).tokenized_words.flatten)
    ∧ (Target.makeNone "Wazzup! :) hi").normalized = "wazzup  hi" := by
  constructor
  · intro text
    simp only [Target.makeNone]
    exact congrArg (String.intercalate " ")
      (groups_map_intercalate kill_non_alphanumerics ((pyReSplitWs 32 text).map pyLower))
  · rfl

/-- C10: an engine on which load_scripts has never run with a valid directory
(any number of calls on a non-directory path leave the state untouched) has
no cache_built attribute, so the first reply call reaches build_cache and
raises AttributeError, whatever parser, matcher, user, message and depth are
involved. -/
theorem C10_reply_before_load_raises_attribute_error :
    ∀ (cRe : String → String → Bool) (pp : ParserOps String) (n fuel : Nat)
      (debug : Bool) (depth d : Int) (u m : String),
      ∃ e, pyReply cRe pp (fuel + 1)
            (load_scripts_bad_directory^[n] (engineInit String debug depth)) u m d
          = some (e, Except.error (PyExc.attributeError "cache_built")) := by
  intro cRe pp n fuel debug depth d u m
  rw [Function.iterate_fixed rfl n]
  exact ⟨_, rfl⟩

/-- Sanity link between the two Target constructors: a Target built with
substitutions=None (the reply path) is exactly makeNone's value. -/
theorem target_make_none_eq (text : String) :
    Target.make text none = Except.ok (Target.makeNone text) := by
  have h : ∀ l : List String, Target.do_substitutions_all none l
      = Except.ok (l.map fun w => [w]) := by
    intro l
    induction l with
    | nil => rfl
    | cons w ws ih => simp only [Target.do_substitutions_all, Target.do_substitutions, ih,
        List.map_cons]
  simp only [Target.make, Target.makeNone, h]
